import Mathlib

/-!
# Verification of the ELAPro IELTS evaluation backend

A shallow embedding of the deterministic core of the ELAPro2 backend
(`agent_files/helper_functions.py`, `agent_files/gap_analysis_agent.py`,
`agent_files/coherence_agent.py`, `agent_files/image_description_agent.py`,
`app/tools/band_descriptor_tool.py`, `app/tools/key_assessment_criteria_tool.py`,
`app/tools/prompt_templates.py`, `agent_files/central_agent.py`), together with
theorems settling the specification claims about it.

Conventions of the embedding:
* Python exceptions are modelled with `Except String`; a raised `ValueError` /
  `KeyError` becomes `Except.error msg` with the source's message text.
* Python `dict`s (insertion ordered) are modelled as association lists.
* Machine floats: `calculate_overall_band` divides a sum `S ≤ 36` of integers
  by `4` and multiplies by `2`; all intermediate values are dyadic rationals
  with denominator at most `4`, hence exactly representable as IEEE doubles,
  so the `ℚ` model is exact.
* Opaque LLM / network calls are parameters of the embedded functions.
-/

set_option maxHeartbeats 1000000
set_option maxRecDepth 40000

namespace ELAPro

/-! ## Python-semantics helpers -/

/-- Python truthiness of a string: `bool(s)` is `True` iff `s` is non-empty. -/
def pyTruthyStr (s : String) : Bool := s ≠ ""

/-- Python truthiness of `None`: `bool(None)` is `False`. -/
def pyTruthyNone : Bool := false

/-- Python substring test `needle in hay`. -/
def strContains (hay needle : String) : Bool :=
  (List.range (hay.data.length + 1)).any
    (fun i => needle.data.isPrefixOf (hay.data.drop i))

/-- Python `str.lower()` on one ASCII character. -/
def pyCharLower (c : Char) : Char :=
  if c.toNat ≥ 65 ∧ c.toNat ≤ 90 then Char.ofNat (c.toNat + 32) else c

/-- Python `str.lower()` (over the ASCII names used in this codebase). -/
def pyToLower (s : String) : String := String.mk (s.data.map pyCharLower)

/-- Python `str.strip()`: drop leading and trailing whitespace. -/
def pyStrip (s : String) : String :=
  String.mk (((s.data.dropWhile Char.isWhitespace).reverse.dropWhile
    Char.isWhitespace).reverse)

/-- Helper for `pySplitWhitespace`: walks the character list keeping the
(reversed) current token. -/
def pySplitWsAux : List Char → List Char → List String
  | [], [] => []
  | [], cur => [String.mk cur.reverse]
  | c :: rest, cur =>
    if c.isWhitespace then
      match cur with
      | [] => pySplitWsAux rest []
      | _ => String.mk cur.reverse :: pySplitWsAux rest []
    else pySplitWsAux rest (c :: cur)

/-- Python `str.split()` with no argument: split on runs of whitespace,
dropping empty tokens.  Used for the word count in
`KeyAssessmentCriteriaTool.get_word_count_penalty`. -/
def pySplitWhitespace (s : String) : List String :=
  pySplitWsAux s.data []

/-! ## `helper_functions.py` -/

/-- `map_essay_type` (helper_functions.py, lines 24-51): maps the essay-type
code to `(exam_type, task_type_str, task_type_int)`; raises `ValueError` for a
code outside 1-4. -/
def map_essay_type (essay_type : ℤ) : Except String (String × String × ℤ) :=
  if essay_type = 1 ∨ essay_type = 2 then
    Except.ok ("General Training", if essay_type = 1 ∨ essay_type = 3 then "Task 1" else "Task 2",
      if essay_type = 1 ∨ essay_type = 3 then 1 else 2)
  else if essay_type = 3 ∨ essay_type = 4 then
    Except.ok ("Academic", if essay_type = 1 ∨ essay_type = 3 then "Task 1" else "Task 2",
      if essay_type = 1 ∨ essay_type = 3 then 1 else 2)
  else
    Except.error "Invalid essay_type, must be 1-4"

/-- `map_agent_to_criteria` (helper_functions.py, lines 54-90): maps an agent
name (lower-cased) to the JSON criterion; for `task_agent` the criterion
depends on the task number. -/
def map_agent_to_criteria (agent_name : String) (task_number : Option ℤ) :
    Except String String :=
  let lower := pyToLower agent_name
  if lower = "task_agent" then
    match task_number with
    | none => Except.error "task_number is required for task_agent"
    | some 1 => Except.ok "Task Achievement"
    | some 2 => Except.ok "Task Response"
    | some _ => Except.error "task_number must be Task 1 or Task 2"
  else if lower = "grammar_agent" then Except.ok "Grammatical Range & Accuracy"
  else if lower = "lexical_agent" then Except.ok "Lexical Resource"
  else if lower = "coherence_agent" then Except.ok "Coherence & Cohesion"
  else Except.error ("Unknown agent name: " ++ agent_name)

/-- `map_criteria_to_agent` (helper_functions.py, lines 93-121): maps a
criterion name (trimmed, lower-cased) to the agent name. -/
def map_criteria_to_agent (criterion : String) : Except String String :=
  let n := pyToLower (pyStrip criterion)
  if n = "task achievement" ∨ n = "task response" then Except.ok "task_agent"
  else if n = "grammatical range & accuracy" then Except.ok "grammar_agent"
  else if n = "lexical resource" then Except.ok "lexical_agent"
  else if n = "coherence & cohesion" then Except.ok "coherence_agent"
  else Except.error ("Unknown criterion: " ++ criterion)

/-- `map_criteria_to_comment` (helper_functions.py, lines 124-152). -/
def map_criteria_to_comment (criterion : String) : Except String String :=
  let n := pyToLower (pyStrip criterion)
  if n = "task achievement" ∨ n = "task response" then Except.ok "task_comment"
  else if n = "grammatical range & accuracy" then Except.ok "grammar_comment"
  else if n = "lexical resource" then Except.ok "lexical_comment"
  else if n = "coherence & cohesion" then Except.ok "coherence_comment"
  else Except.error ("Unknown criterion: " ++ criterion)

/-- `calculate_overall_band` (helper_functions.py, lines 158-176): rejects a
list whose length is not 4 and any score outside `[0, 9]`, otherwise returns
`floor(average * 2) / 2`. -/
def calculate_overall_band (band_scores : List ℤ) : Except String ℚ :=
  if band_scores.length ≠ 4 then
    Except.error "4 band scores required to calculate overall score"
  else if band_scores.any (fun s => s < 0 ∨ 9 < s) then
    Except.error "Individual band scores must be an integer between 0 and 9"
  else
    let average : ℚ := (band_scores.sum : ℚ) / (band_scores.length : ℚ)
    Except.ok ((⌊average * 2⌋ : ℚ) / 2)

/-- `has_hit_target` (helper_functions.py, lines 179-189). -/
def has_hit_target (actual : ℚ) (target : ℤ) : Bool :=
  (target : ℚ) ≤ actual

/-- `get_weak_bands` (helper_functions.py, lines 192-202): criteria scoring
strictly below the target, in insertion order. -/
def get_weak_bands (band_scores : List (String × ℤ)) (target : ℤ) :
    List (String × ℤ) :=
  band_scores.filter (fun kv => kv.2 < target)

/-- `get_strong_bands` (helper_functions.py, lines 205-215). -/
def get_strong_bands (band_scores : List (String × ℤ)) (target : ℤ) :
    List (String × ℤ) :=
  band_scores.filter (fun kv => target ≤ kv.2)

/-! ## Descriptor Store (`band_descriptor_tool.py`, `key_assessment_criteria_tool.py`)

The static JSON rubric files live next to the tools but are data, not code;
the lookups into them are modelled as total functions to `Option`, a `none`
playing the role of a Python `KeyError` at that path.  Descriptor leaf entries
are abstracted as their `json.dumps` text.
-/

/-- The band-descriptor dataset: `(exam_type, task_type_name, criteria, band)
↦ json.dumps` of the descriptor entry, `none` where the JSON has no such
path. -/
structure BandDescriptorData where
  entry : String → String → String → ℤ → Option String

/-- One criterion's entry in the key-assessment-criteria dataset. -/
structure CriterionAssessment where
  common_assessment : List String
  specific_assessment : List String

/-- The key-assessment-criteria dataset: `(exam_type, task_type_name,
criteria) ↦` the criterion entry, plus the per-task word requirement. -/
structure AssessmentData where
  entry : String → String → String → Option CriterionAssessment
  word_requirement : String → String → Option ℤ

/-- `BandDescriptorTool._format_descriptor_output_all` (band_descriptor_tool.py,
lines 52-76), with the JSON dump of the entry abstracted as `descriptor_data`. -/
def format_descriptor_output_all (exam_type task_type_name descriptor_name
    descriptor_data : String) : String :=
  "\nAn essay must fully fit the positive features of the descriptor at a particular level.\n\n- \"common_descriptor\": Describes the overall positive qualities expected at this band.\n- \"specific_descriptor\": these are specifics requirements for "
    ++ exam_type
    ++ " writing test; missing these may lower the rating.\n- \"critical_negative_features\": indicates negative features that will limit a rating.\n\nHere are the band score descriptors for "
    ++ exam_type ++ " - " ++ task_type_name ++ ":\n\n"
    ++ descriptor_name ++ ": " ++ descriptor_data ++ "\n"

/-- `BandDescriptorTool.get_target_band_descriptors_by_criteria`
(band_descriptor_tool.py, lines 188-214): resolves exam/task via
`map_essay_type` and the criterion via `map_agent_to_criteria` (both of which
raise on bad input), then looks the band up in the data; a `KeyError` there is
caught and the string "Descriptor not found for given parameters." is
returned as the normal result. -/
def get_target_band_descriptors_by_criteria (data : BandDescriptorData)
    (essay_type : ℤ) (agent : String) (band : ℤ) : Except String String := do
  let (exam_type, task_type_name, task_number) ← map_essay_type essay_type
  let criteria ← map_agent_to_criteria agent (some task_number)
  match data.entry exam_type task_type_name criteria band with
  | some descriptor_data =>
      Except.ok (format_descriptor_output_all exam_type task_type_name
        (criteria ++ " - Band " ++ toString band) descriptor_data)
  | none => Except.ok "Descriptor not found for given parameters."

/-- `KeyAssessmentCriteriaTool._format_output_criterion`
(key_assessment_criteria_tool.py, lines 101-133). -/
def format_output_criterion (criteria_name : String)
    (criteria_data : CriterionAssessment) : String :=
  let common_formatted :=
    if criteria_data.common_assessment.isEmpty then ""
    else "\n- " ++ String.intercalate "\n- " criteria_data.common_assessment
  let specific_formatted :=
    if criteria_data.specific_assessment.isEmpty then ""
    else "\n- " ++ String.intercalate "\n- " criteria_data.specific_assessment
  "\n\nWhen evaluating **" ++ criteria_name ++ "** you must consider ONLY:\n\n"
    ++ common_formatted ++ "\n\n" ++ specific_formatted ++ "\n"

/-- `KeyAssessmentCriteriaTool.get_assessment_by_criteria`
(key_assessment_criteria_tool.py, lines 221-243): same resolution as the
descriptor lookup; a `KeyError` in the data is caught and the string
"Criterion assessment not found for given parameters." is returned as the
normal result. -/
def get_assessment_by_criteria (data : AssessmentData) (essay_type : ℤ)
    (agent : String) : Except String String := do
  let (exam_type, task_type_name, task_number) ← map_essay_type essay_type
  let criteria ← map_agent_to_criteria agent (some task_number)
  match data.entry exam_type task_type_name criteria with
  | some criteria_data =>
      Except.ok (format_output_criterion criteria criteria_data)
  | none => Except.ok "Criterion assessment not found for given parameters."

/-- `KeyAssessmentCriteriaTool.get_task_word_requirement`
(key_assessment_criteria_tool.py, lines 207-219); an absent data path raises
(`KeyError` is not caught here). -/
def get_task_word_requirement (data : AssessmentData) (essay_type : ℤ) :
    Except String ℤ := do
  let (exam_type, task_type_name, _) ← map_essay_type essay_type
  match data.word_requirement exam_type task_type_name with
  | some n => Except.ok n
  | none => Except.error "KeyError: word_requirement"

/-- `KeyAssessmentCriteriaTool.get_word_count_penalty`
(key_assessment_criteria_tool.py, lines 245-329), branch for branch: for
types 1/3 the chain is `< 150 and >= 140` / `elif < 140` / `elif < 100` /
`else`, for types 2/4 it is `< 250 and >= 230` / `elif < 230` / `elif < 200` /
`else`; for any other type the Python function falls off the end and returns
`None` (modelled as `Except.ok none`). -/
def get_word_count_penalty (data : AssessmentData) (essay_type : ℤ)
    (essay : String) : Except String (Option String) := do
  let word_requirement ← get_task_word_requirement data essay_type
  let actual_word_count : ℤ := (pySplitWhitespace essay).length
  let general_response := "The minimum words required for this task is: "
    ++ toString word_requirement ++ ". This essay actually has "
    ++ toString actual_word_count ++ " words: "
  let slight_penalty := "REDUCE the Task Achievement Band score by 0.5"
  let stronger_penalty := "REDUCE the Task Achievement Band score by 1 band or more depending on Task Achievement impact."
  let critical_penalty := "The Task Achievement Band score should *not exceed Band score 5* for Task Achievement"
  let no_penalty := "no word count penalty applies."
  if essay_type = 1 ∨ essay_type = 3 then
    if actual_word_count < 150 ∧ 140 ≤ actual_word_count then
      Except.ok (some (general_response ++ slight_penalty))
    else if actual_word_count < 140 then
      Except.ok (some (general_response ++ stronger_penalty))
    else if actual_word_count < 100 then
      Except.ok (some (general_response ++ critical_penalty))
    else
      Except.ok (some (general_response ++ no_penalty))
  else if essay_type = 2 ∨ essay_type = 4 then
    if actual_word_count < 250 ∧ 230 ≤ actual_word_count then
      Except.ok (some (general_response ++ slight_penalty))
    else if actual_word_count < 230 then
      Except.ok (some (general_response ++ stronger_penalty))
    else if actual_word_count < 200 then
      Except.ok (some (general_response ++ critical_penalty))
    else
      Except.ok (some (general_response ++ no_penalty))
  else
    Except.ok none

/-- Modelled from the spec: the JSON assessment-criteria data files
(`ielts_assessment_criteria_*.json`, shipped next to the tools but not under
`src/`) fix the `word_requirement` at 150 words for Task 1 and 250 words for
Task 2 of either exam type (spec §4.3). -/
def specWordRequirement : String → String → Option ℤ := fun exam_type task =>
  if exam_type = "Academic" ∨ exam_type = "General Training" then
    if task = "Task 1" then some 150
    else if task = "Task 2" then some 250
    else none
  else none

/-- Modelled from the spec: the band-descriptor JSON files
(`ielts_descriptors_*.json`, not under `src/`) hold one descriptor entry per
exam type, task type, known criterion and band 1-9 (spec §6 and the
hierarchy docstring in band_descriptor_tool.py). -/
def specBandDescriptorData : BandDescriptorData where
  entry := fun exam_type task criteria band =>
    if (exam_type = "Academic" ∨ exam_type = "General Training")
        ∧ (task = "Task 1" ∨ task = "Task 2")
        ∧ (criteria = "Grammatical Range & Accuracy" ∨ criteria = "Lexical Resource"
            ∨ criteria = "Coherence & Cohesion" ∨ criteria = "Task Achievement"
            ∨ criteria = "Task Response")
        ∧ 1 ≤ band ∧ band ≤ 9 then
      some ("descriptor entry for " ++ criteria ++ " band " ++ toString band)
    else none

/-- Modelled from the spec: the assessment-criteria JSON files (not under
`src/`) hold one entry per exam type, task type and known criterion, and the
word requirements of `specWordRequirement`. -/
def specAssessmentData : AssessmentData where
  entry := fun exam_type task criteria =>
    if (exam_type = "Academic" ∨ exam_type = "General Training")
        ∧ (task = "Task 1" ∨ task = "Task 2")
        ∧ (criteria = "Grammatical Range & Accuracy" ∨ criteria = "Lexical Resource"
            ∨ criteria = "Coherence & Cohesion" ∨ criteria = "Task Achievement"
            ∨ criteria = "Task Response") then
      some { common_assessment := ["core standard for " ++ criteria],
             specific_assessment := [] }
    else none
  word_requirement := specWordRequirement

/-! ## Prompt template (`prompt_templates.py`) and the three text agents -/

/-- The text of `IELTS_EVALUATION_PROMPT` before the `notes` placeholder
(prompt_templates.py, lines 17-44), with the placeholders interpolated. -/
def ielts_evaluation_template_pre (criteria goal_aditional
    task_description_output question essay criteria_tool_output
    band_tool_output : String) : String :=
  "\nYou are an expert IELTS examiner specialising in " ++ criteria
    ++ " in writing.\n\nYour goal is to evaluate the essay **ONLY** for the "
    ++ criteria ++ " criterion.\n" ++ goal_aditional
    ++ "\n\n## Task Context\n\n**Task Type Description:**\n"
    ++ task_description_output ++ "\n\n**Question:**\n" ++ question
    ++ "\n\n**Essay:**\n" ++ essay
    ++ "\n\n## Evaluation Basis\n\nUse the following resources to guide your judgement:\n\n**Assessment Rules**\n"
    ++ criteria_tool_output ++ "\n\n**Band Score Descriptors:**\n"
    ++ band_tool_output ++ "\n\n## Notes:\n"

/-- The text of `IELTS_EVALUATION_PROMPT` after the `notes` placeholder
(prompt_templates.py, lines 46-67). -/
def ielts_evaluation_template_post (criteria output_score
    output_comments : String) : String :=
  "\n\n## Evaluation Instructions\n1. Evaluate the essay **strictly** according to the "
    ++ criteria ++ " criterion — ignore other criteria.\n2. Determine the most accurate **band score (1–9)** based on how well the essay meets the positive features of each band descriptor.\n3. Provide **concise, non-redundant feedback** that is directly related to "
    ++ criteria ++ " and consider the notes provided as well.\n4. Use **specific "
    ++ criteria ++ " examples** from the essay where possible.\n5. Suggest **clear, actionable improvements** to raise the score\n6. Responses should be in Australian English\n\n## Output Format\n\nThe Output format must strictly follow this structure:\n"
    ++ output_score ++ ": <integer 0-9>\n" ++ output_comments
    ++ ": <brief, actionable feedback with examples>\n\nEnsure the comments are formatted in markdown as below:\n**You did very well:**\n**Need to improve:**\n**Examples of errors:**\n**How to improve your score:**\n\n"

/-- `IELTS_EVALUATION_PROMPT.format(...)`: langchain `PromptTemplate.format`
uses strict f-string substitution, so a placeholder with no corresponding
keyword argument raises a `KeyError`.  The template reads `goal_aditional`
first, then `notes`. -/
def ielts_evaluation_prompt_format (essay question criteria output_score
    output_comments task_description_output criteria_tool_output
    band_tool_output : String) (goal_aditional notes : Option String) :
    Except String String :=
  match goal_aditional with
  | none => Except.error "KeyError: goal_aditional"
  | some g =>
    match notes with
    | none => Except.error "KeyError: notes"
    | some n =>
      Except.ok (ielts_evaluation_template_pre criteria g
          task_description_output question essay criteria_tool_output
          band_tool_output
        ++ n
        ++ ielts_evaluation_template_post criteria output_score
          output_comments)

/-- The fixed short-response instruction shared by the lexical, coherence and
task agents. -/
def twenty_word_instruction : String :=
  "Responses of 20 words or fewer are rated at Band 1."

/-- The prompt built by `grammar_evaluation` (grammar_agent.py, lines 51-72):
the `format` call passes neither `goal_aditional` nor `notes`. -/
def grammar_evaluation_prompt (essay question task_tool_output
    criteria_tool_output band_tool_output : String) : Except String String :=
  ielts_evaluation_prompt_format essay question
    "Grammatical Range and Accuracy" "grammar_score" "grammar_comment"
    task_tool_output criteria_tool_output band_tool_output none none

/-- The prompt built by `lexical_evaluation` (lexical_agent.py, lines 59-86). -/
def lexical_evaluation_prompt (essay question task_tool_output
    criteria_tool_output band_tool_output : String) : Except String String :=
  ielts_evaluation_prompt_format essay question "Lexical Resource"
    "lexical_score" "lexical_comment" task_tool_output criteria_tool_output
    band_tool_output
    (some "Ignore grammatical errors, sentence structure, and task achievement. Evaluate only the **range, accuracy, appropriacy, and sophistication of vocabulary** used by the candidate.")
    (some twenty_word_instruction)

/-- The condition of coherence_agent.py, line 75:
`if "\n" or "\n\n" not in input_state.essay` — the left operand of `or` is the
truthy string literal `"\n"`, not a membership test, so Python evaluates the
whole condition to that truthy literal. -/
def coherence_paragraph_condition (essay : String) : Bool :=
  pyTruthyStr "\n" || !(strContains essay "\n\n")

/-- The strong paragraphing note of coherence_agent.py, line 76. -/
def coherence_attention_note : String :=
  "ATTENTION: The essay contains NO line breaks. The Coherence and Cohesion score MUST be reduced by 1–2 bands, depending on the overall cohesion quality. Words signalling paragraph starts (e.g., \x27Firstly\x27, \x27In conclusion\x27) do not count as paragraph breaks."

/-- The mild paragraphing note of coherence_agent.py, line 78 (the Python
triple-quoted string interprets the escapes, so it contains literal
newlines). -/
def coherence_soft_note : String :=
  "No paragraph breaks (no \x27\n\x27 or \x27\n\n\x27) in the text should result in a 1–2 band reduction in Coherence and Cohesion, depending on overall cohesion. Words signalling paragraph starts (e.g., \x27Firstly\x27, \x27In conclusion\x27) do not count as paragraph breaks."

/-- `note_paragraphing` as selected in `coherence_evaluation`
(coherence_agent.py, lines 75-78). -/
def note_paragraphing (essay : String) : String :=
  if coherence_paragraph_condition essay then coherence_attention_note
  else coherence_soft_note

/-- The prompt built by `coherence_evaluation` (coherence_agent.py, lines
62-96): `notes` is the paragraphing note with the short-response instruction
appended. -/
def coherence_evaluation_prompt (essay question task_tool_output
    criteria_tool_output band_tool_output : String) : Except String String :=
  ielts_evaluation_prompt_format essay question "Coherence & Cohesion"
    "coherence_score" "coherence_comment" task_tool_output
    criteria_tool_output band_tool_output
    (some "Do NOT comment on grammar, vocabulary, spelling, or task achievement.")
    (some (note_paragraphing essay ++ "\nResponses of 20 words or fewer are rated at Band 1."))

/-! ## Image description step (`image_description_agent.py`) -/

/-- A value of Python type `ImageDescriptionOutput | None`: what
`image_structured.invoke` yields and what `image_evaluation` returns. -/
inductive PyImageResult where
  /-- The Python value `None`. -/
  | pyNone : PyImageResult
  /-- `ImageDescriptionOutput(image_description=desc)`. -/
  | output (desc : Option String) : PyImageResult
deriving DecidableEq

/-- Python `response == ""` for `response : ImageDescriptionOutput | None`:
`None == ""` is `False`, and comparing a pydantic model with a `str` is also
`False`, so this comparison never holds. -/
def pyEqEmptyStr : PyImageResult → Bool := fun _ => false

/-- `image_evaluation` (image_description_agent.py, lines 61-84).  The LLM
call `image_structured.invoke([prompt])` is the opaque parameter `invoke`;
`is_image` is the opaque `is_image_url` network check.  Line 80 reads
`if response == "" or None:` — `or None` is a literal falsy operand, so the
condition is just `response == ""`, which is never true. -/
def image_evaluation (is_image : String → Bool) (invoke : PyImageResult)
    (image_url : Option String) (image_description : Option String) :
    PyImageResult :=
  match image_url with
  | none => PyImageResult.output image_description
  | some url =>
    if is_image url
        ∧ (image_description = none ∨ image_description = some ""
            ∨ image_description = some "null") then
      let response := invoke
      if pyEqEmptyStr response || pyTruthyNone then
        PyImageResult.output image_description
      else
        response
    else
      PyImageResult.output image_description

/-! ## Retry wrapper (`central_agent.py`, lines 34-40) -/

/-- Modelled from the spec: the retry semantics of langchain's
`RunnableLambda(agent).with_retry(stop_after_attempt=n)` (the library code is
not part of this repository).  Per spec §4.4 the wrapper re-invokes the same
callable with the same input on every exception, for at most `n` attempts in
total, and re-raises the last exception when all attempts fail.  The opaque
external world is modelled by letting the wrapped agent's outcome depend on
the attempt number. -/
def retry_go {α : Type} (f : ℕ → Except String α) : ℕ → ℕ → Except String α
  | 0, i => f i
  | 1, i => f i
  | (n + 2), i =>
    match f i with
    | Except.ok a => Except.ok a
    | Except.error _ => retry_go f (n + 1) (i + 1)

/-- Modelled from the spec: `with_retry(stop_after_attempt=stop)` applied to
an agent, run on input `x`; the first attempt is attempt `0`, and the same
input `x` is used for every attempt. -/
def with_retry {σ α : Type} (stop_after_attempt : ℕ)
    (agent : σ → ℕ → Except String α) (x : σ) : Except String α :=
  retry_go (agent x) stop_after_attempt 0

/-- The wrappers of central_agent.py, lines 34-40: every scoring branch is
wrapped as `RunnableLambda(agent).with_retry(stop_after_attempt=5)`. -/
def scoring_retriable {σ α : Type} (agent : σ → ℕ → Except String α)
    (x : σ) : Except String α :=
  with_retry 5 agent x

/-! ## Gap analysis (`gap_analysis_agent.py`) -/

/-- The fields of `CentralAgentState` (agent_states.py, lines 191-216) that
`gap_analysis` reads.  The four scores are taken as present integers — the
claim and spec presuppose a fully aggregated state; pydantic constrains them
to `[0, 9]` when present, which the theorems carry as hypotheses. -/
structure CentralAgentState where
  essay_type : ℤ
  target_band : ℤ
  grammar_score : ℤ
  coherence_score : ℤ
  lexical_score : ℤ
  task_score : ℤ
  grammar_comment : Option String
  coherence_comment : Option String
  lexical_comment : Option String
  task_comment : Option String

/-- The `band_scores` dict built at gap_analysis_agent.py, lines 60-65: note
that the task criterion is keyed "Task Response" whatever the essay type. -/
def gap_band_scores (input : CentralAgentState) : List (String × ℤ) :=
  [("Grammatical Range & Accuracy", input.grammar_score),
   ("Coherence & Cohesion", input.coherence_score),
   ("Lexical Resource", input.lexical_score),
   ("Task Response", input.task_score)]

/-- `getattr(input, comment_name, "No comment available")` at
gap_analysis_agent.py, line 79: the four comment attributes always exist on
the state (possibly `None`), so the default only covers an unknown name. -/
def state_comment_lookup (input : CentralAgentState) (name : String) :
    Option String :=
  if name = "grammar_comment" then input.grammar_comment
  else if name = "coherence_comment" then input.coherence_comment
  else if name = "lexical_comment" then input.lexical_comment
  else if name = "task_comment" then input.task_comment
  else some "No comment available"

/-- The congratulatory feedback of gap_analysis_agent.py, line 71. -/
def target_met_message : String :=
  "Well Done. The essay meets or exceeds your target band selected. Maintain current writing quality."

/-- The dict `gap_analysis` returns, as a partial state update: on the
target-met path only `overall_feedback` is present (gap_analysis_agent.py,
lines 69-72), on the other path all six keys are (lines 115-122). -/
structure GapAnalysisUpdate where
  overall_feedback : String
  overall_band : Option ℚ := none
  met_target : Option Bool := none
  weak_bands : Option (List (String × ℤ)) := none
  descriptors_used : Option (List (String × String)) := none
  assessment_criteria_used : Option (List (String × String)) := none

/-- One iteration of the weak-comments loop (gap_analysis_agent.py, lines
76-79): resolve the comment attribute name for the weak criterion and read it
off the state. -/
def gap_weak_comment (input : CentralAgentState) (kv : String × ℤ) :
    Except String (String × Option String) := do
  let comment_name ← map_criteria_to_comment kv.1
  Except.ok (kv.1, state_comment_lookup input comment_name)

/-- One iteration of the descriptor/criteria loop (gap_analysis_agent.py,
lines 84-101): resolve the agent for the weak criterion and fetch its
target-band descriptor and its assessment criteria, in source order. -/
def gap_fetch (bd : BandDescriptorData) (ad : AssessmentData)
    (essay_type target_band : ℤ) (kv : String × ℤ) :
    Except String (String × String × String) := do
  let agent ← map_criteria_to_agent kv.1
  let descriptor_output ←
    get_target_band_descriptors_by_criteria bd essay_type agent target_band
  let agent2 ← map_criteria_to_agent kv.1
  let criteria_output ← get_assessment_by_criteria ad essay_type agent2
  Except.ok (kv.1, descriptor_output, criteria_output)

/-- `gap_analysis` (gap_analysis_agent.py, lines 45-122).  The improvement
plan LLM call is the opaque parameter `llm`, invoked once, after the loop
over the weak criteria, on the accumulated weak-band data (the per-iteration
prompt rebuilds before the last iteration are dead stores; the final prompt
embeds all accumulated data, which is what `llm` receives here).  Errors
raised inside the loop propagate. -/
def gap_analysis (bd : BandDescriptorData) (ad : AssessmentData)
    (llm : ℚ → ℤ → List (String × ℤ) → List (String × Option String) →
      List (String × String) → List (String × String) → String)
    (input : CentralAgentState) : Except String GapAnalysisUpdate := do
  let band_scores := gap_band_scores input
  let overall_band ← calculate_overall_band (band_scores.map Prod.snd)
  if has_hit_target overall_band input.target_band then
    Except.ok { overall_feedback := target_met_message }
  else do
    let weak_bands := get_weak_bands band_scores input.target_band
    let weak_comments ← weak_bands.mapM (gap_weak_comment input)
    let fetched ←
      weak_bands.mapM (gap_fetch bd ad input.essay_type input.target_band)
    let descriptor_data := fetched.map (fun x => (x.1, x.2.1))
    let criteria_data := fetched.map (fun x => (x.1, x.2.2))
    let improvement_plan := llm overall_band input.target_band weak_bands
      weak_comments descriptor_data criteria_data
    Except.ok { overall_feedback := improvement_plan,
                overall_band := some overall_band,
                met_target := some false,
                weak_bands := some weak_bands,
                descriptors_used := some descriptor_data,
                assessment_criteria_used := some criteria_data }

/-! ## Supporting lemmas -/

/-- The half-band floor over `ℚ` equals integer division of the sum by two. -/
theorem half_floor_eq_intDiv (S : ℤ) :
    (⌊(S : ℚ) / 4 * 2⌋ : ℚ) / 2 = ((S / 2 : ℤ) : ℚ) / 2 := by
  have h2 : (S : ℚ) / 4 * 2 = (S : ℚ) / ((2 : ℕ) : ℚ) := by
    push_cast
    ring
  rw [h2, Rat.floor_intCast_div_natCast]
  norm_num

/-- On four in-range scores, `calculate_overall_band` succeeds and the
half-band floor equals integer division of the sum by two. -/
theorem calculate_overall_band_ok (a b c d : ℤ)
    (ha : 0 ≤ a ∧ a ≤ 9) (hb : 0 ≤ b ∧ b ≤ 9)
    (hc : 0 ≤ c ∧ c ≤ 9) (hd : 0 ≤ d ∧ d ≤ 9) :
    calculate_overall_band [a, b, c, d] =
      Except.ok ((((a + b + c + d) / 2 : ℤ) : ℚ) / 2) := by
  unfold calculate_overall_band
  rw [if_neg (by simp)]
  rw [if_neg ?hany]
  case hany =>
    simp only [List.any_cons, List.any_nil, Bool.or_false, Bool.or_eq_true,
      decide_eq_true_eq]
    push_neg
    omega
  have hsum : a + (b + (c + (d + 0))) = a + b + c + d := by ring
  simp only [List.sum_cons, List.sum_nil, List.length_cons, List.length_nil,
    Nat.cast_ofNat, hsum]
  have hlen : ((0 + 1 + 1 + 1 + 1 : ℕ) : ℚ) = 4 := by norm_num
  rw [hlen, half_floor_eq_intDiv]

/-! ## Claim C1 -/

/-- C1: for every list of exactly four integer scores each in `[0, 9]`,
`calculate_overall_band` returns `floor(average * 2) / 2`; the result is in
`[0, 9]`, is a multiple of `0.5`, never exceeds the true average, and never
exceeds `9.0`; and the five enumerated examples evaluate as stated. -/
theorem calculate_overall_band_spec :
    (∀ scores : List ℤ, scores.length = 4 → (∀ s ∈ scores, 0 ≤ s ∧ s ≤ 9) →
      ∃ b : ℚ, calculate_overall_band scores = Except.ok b ∧
        b = (⌊(scores.sum : ℚ) / 4 * 2⌋ : ℚ) / 2 ∧
        0 ≤ b ∧ b ≤ 9 ∧ (∃ k : ℤ, b = (k : ℚ) / 2) ∧
        b ≤ (scores.sum : ℚ) / 4) ∧
    calculate_overall_band [6, 7, 7, 8] = Except.ok 7 ∧
    calculate_overall_band [6, 6, 6, 7] = Except.ok 6 ∧
    calculate_overall_band [6, 7, 7, 7] = Except.ok (13 / 2) ∧
    calculate_overall_band [0, 0, 0, 0] = Except.ok 0 ∧
    calculate_overall_band [9, 9, 9, 9] = Except.ok 9 := by
  refine ⟨?_, ?_, ?_, ?_, ?_, ?_⟩
  · intro scores h4 hr
    rcases scores with _ | ⟨a, _ | ⟨b, _ | ⟨c, _ | ⟨d, _ | ⟨e, t⟩⟩⟩⟩⟩
    · simp at h4
    · simp at h4
    · simp at h4
    · simp at h4
    case cons.cons.cons.cons.cons =>
      simp at h4
    have ha := hr a (by simp)
    have hb := hr b (by simp)
    have hc := hr c (by simp)
    have hd := hr d (by simp)
    have hs : ([a, b, c, d] : List ℤ).sum = a + b + c + d := by
      simp [add_assoc]
    have hS : 0 ≤ a + b + c + d ∧ a + b + c + d ≤ 36 := by omega
    have hk : 0 ≤ (a + b + c + d) / 2 ∧ (a + b + c + d) / 2 ≤ 18 := by omega
    refine ⟨(((a + b + c + d) / 2 : ℤ) : ℚ) / 2,
      calculate_overall_band_ok a b c d ha hb hc hd, ?_, ?_, ?_,
      ⟨(a + b + c + d) / 2, rfl⟩, ?_⟩
    · rw [hs]
      exact (half_floor_eq_intDiv _).symm
    · exact div_nonneg (by exact_mod_cast hk.1) (by norm_num)
    · rw [div_le_iff₀ (by norm_num : (0 : ℚ) < 2)]
      have : (((a + b + c + d) / 2 : ℤ) : ℚ) ≤ 18 := by exact_mod_cast hk.2
      linarith
    · rw [hs, div_le_div_iff₀ (by norm_num : (0 : ℚ) < 2)
        (by norm_num : (0 : ℚ) < 4)]
      have : ((a + b + c + d) / 2 : ℤ) * 4 ≤ (a + b + c + d) * 2 := by omega
      exact_mod_cast this
  · rw [calculate_overall_band_ok 6 7 7 8 (by norm_num) (by norm_num)
      (by norm_num) (by norm_num)]
    norm_num
  · rw [calculate_overall_band_ok 6 6 6 7 (by norm_num) (by norm_num)
      (by norm_num) (by norm_num)]
    norm_num
  · rw [calculate_overall_band_ok 6 7 7 7 (by norm_num) (by norm_num)
      (by norm_num) (by norm_num)]
    norm_num
  · rw [calculate_overall_band_ok 0 0 0 0 (by norm_num) (by norm_num)
      (by norm_num) (by norm_num)]
    norm_num
  · rw [calculate_overall_band_ok 9 9 9 9 (by norm_num) (by norm_num)
      (by norm_num) (by norm_num)]
    norm_num

/-- Witness for C1: the universal part applied at `[6, 7, 7, 7]`. -/
theorem calculate_overall_band_spec_witness :
    ∃ b : ℚ, calculate_overall_band [6, 7, 7, 7] = Except.ok b ∧
      b = (⌊(([6, 7, 7, 7] : List ℤ).sum : ℚ) / 4 * 2⌋ : ℚ) / 2 ∧
      0 ≤ b ∧ b ≤ 9 ∧ (∃ k : ℤ, b = (k : ℚ) / 2) ∧
      b ≤ (([6, 7, 7, 7] : List ℤ).sum : ℚ) / 4 :=
  calculate_overall_band_spec.1 [6, 7, 7, 7] (by decide) (by decide)

/-! ## Claim C5 -/

/-- C5: `calculate_overall_band` raises a validation error for an input list
of the wrong length and for any list of four scores with an entry outside
`[0, 9]`, and under those conditions never returns a band value. -/
theorem calculate_overall_band_validation :
    (∀ scores : List ℤ, scores.length ≠ 4 →
      calculate_overall_band scores =
        Except.error "4 band scores required to calculate overall score") ∧
    (∀ scores : List ℤ, scores.length = 4 →
      (∃ s ∈ scores, s < 0 ∨ 9 < s) →
      calculate_overall_band scores =
        Except.error
          "Individual band scores must be an integer between 0 and 9") ∧
    (∀ (scores : List ℤ) (b : ℚ),
      (scores.length ≠ 4 ∨ ∃ s ∈ scores, s < 0 ∨ 9 < s) →
      calculate_overall_band scores ≠ Except.ok b) := by
  have h1 : ∀ scores : List ℤ, scores.length ≠ 4 →
      calculate_overall_band scores =
        Except.error "4 band scores required to calculate overall score" := by
    intro scores h
    unfold calculate_overall_band
    rw [if_pos h]
  have h2 : ∀ scores : List ℤ, scores.length = 4 →
      (∃ s ∈ scores, s < 0 ∨ 9 < s) →
      calculate_overall_band scores =
        Except.error
          "Individual band scores must be an integer between 0 and 9" := by
    intro scores h4 hbad
    unfold calculate_overall_band
    rw [if_neg (by simp [h4])]
    rw [if_pos ?pos]
    case pos =>
      obtain ⟨s, hs, hout⟩ := hbad
      simp only [List.any_eq_true, decide_eq_true_eq]
      exact ⟨s, hs, hout⟩
  refine ⟨h1, h2, ?_⟩
  intro scores b h
  rcases h with h | h
  · rw [h1 scores h]
    simp
  · by_cases h4 : scores.length = 4
    · rw [h2 scores h4 h]
      simp
    · rw [h1 scores h4]
      simp

/-- Witness for C5: a three-score list and an out-of-range four-score list
are both rejected. -/
theorem calculate_overall_band_validation_witness :
    calculate_overall_band [7, 8, 9] =
      Except.error "4 band scores required to calculate overall score" ∧
    calculate_overall_band [7, 8, 9, 10] =
      Except.error
        "Individual band scores must be an integer between 0 and 9" :=
  ⟨calculate_overall_band_validation.1 [7, 8, 9] (by decide),
   calculate_overall_band_validation.2.1 [7, 8, 9, 10] (by decide)
     ⟨10, by decide, by decide⟩⟩

/-! ## Claim C3 -/

/-- An essay of `n` copies of the word "word". -/
def essay_of_words (n : ℕ) : String :=
  String.intercalate " " (List.replicate n "word")

/-- C3 (bug evidence): the word-count tiers for a 150-word minimum.  At 150
words no penalty applies, at 145 the half-band reduction applies, at 120 the
one-band-or-more reduction applies — but at 50 words the code again returns
the one-band-or-more reduction instead of the band-5 cap demanded by the
claim and by the function's own docstring, because the `elif < 140` branch
precedes and covers the `elif < 100` branch. -/
theorem word_count_penalty_cap_unreachable :
    get_word_count_penalty specAssessmentData 1 (essay_of_words 150) =
      Except.ok (some ("The minimum words required for this task is: 150. This essay actually has 150 words: "
        ++ "no word count penalty applies.")) ∧
    get_word_count_penalty specAssessmentData 1 (essay_of_words 145) =
      Except.ok (some ("The minimum words required for this task is: 150. This essay actually has 145 words: "
        ++ "REDUCE the Task Achievement Band score by 0.5")) ∧
    get_word_count_penalty specAssessmentData 1 (essay_of_words 120) =
      Except.ok (some ("The minimum words required for this task is: 150. This essay actually has 120 words: "
        ++ "REDUCE the Task Achievement Band score by 1 band or more depending on Task Achievement impact.")) ∧
    get_word_count_penalty specAssessmentData 1 (essay_of_words 50) =
      Except.ok (some ("The minimum words required for this task is: 150. This essay actually has 50 words: "
        ++ "REDUCE the Task Achievement Band score by 1 band or more depending on Task Achievement impact.")) ∧
    ("REDUCE the Task Achievement Band score by 1 band or more depending on Task Achievement impact."
      ≠ "The Task Achievement Band score should *not exceed Band score 5* for Task Achievement") :=
  ⟨rfl, rfl, rfl, rfl, by decide⟩

/-! ## Claim C6 -/

/-- C6 (bug evidence): the paragraphing condition of `coherence_evaluation`
is the Python expression `"\n" or "\n\n" not in essay`, whose left operand is
a truthy string literal, so the strong reduce-by-1-to-2-bands note is chosen
for every essay — including one that does contain a line break, such as
`"First paragraph.\nSecond paragraph."`. -/
theorem coherence_note_always_attention :
    (∀ essay : String, note_paragraphing essay = coherence_attention_note) ∧
    note_paragraphing "First paragraph.\nSecond paragraph." =
      coherence_attention_note ∧
    strContains "First paragraph.\nSecond paragraph." "\n" = true ∧
    coherence_attention_note ≠ coherence_soft_note := by
  refine ⟨?_, ?_, ?_, ?_⟩
  · intro essay
    unfold note_paragraphing coherence_paragraph_condition
    rw [show pyTruthyStr "\n" = true from by decide]
    simp
  · rfl
  · decide
  · decide

/-! ## Claim C8 -/

/-- C8 (bug evidence): with a resolving image reference, a pre-existing
description equal to the literal token "null" and an image-to-text call that
yields a null result, `image_evaluation` returns the null result itself
(Python `None`) instead of falling back to the original description: the
fallback test `if response == "" or None:` never holds.  The two graceful
paths of the claim do hold: a non-resolving reference and an already-present
real description both return the original description unchanged, without
consulting the image-to-text result. -/
theorem image_evaluation_null_fallback_bug :
    image_evaluation (fun _ => true) PyImageResult.pyNone
        (some "https://example.org/chart.png") (some "null") =
      PyImageResult.pyNone ∧
    PyImageResult.pyNone ≠ PyImageResult.output (some "null") ∧
    (∀ (invoke : PyImageResult) (url : String) (desc : Option String),
      image_evaluation (fun _ => false) invoke (some url) desc =
        PyImageResult.output desc) ∧
    (∀ (is_image : String → Bool) (invoke : PyImageResult) (url : String),
      image_evaluation is_image invoke (some url) (some "A bar chart.") =
        PyImageResult.output (some "A bar chart.")) ∧
    (∀ (is_image : String → Bool) (invoke : PyImageResult)
      (desc : Option String),
      image_evaluation is_image invoke none desc =
        PyImageResult.output desc) := by
  refine ⟨rfl, by decide, ?_, ?_, ?_⟩
  · intro invoke url desc
    simp only [image_evaluation]
    rw [if_neg]
    rintro ⟨h, -⟩
    simp at h
  · intro is_image invoke url
    simp only [image_evaluation]
    rw [if_neg]
    rintro ⟨-, h | h | h⟩ <;> simp_all
  · intro is_image invoke desc
    rfl

/-! ## Claim C7 -/

/-- `PromptTemplate.format` with both optional placeholders supplied renders
the template around the notes. -/
theorem ielts_format_ok (essay question criteria output_score output_comments
    task_tool_output criteria_tool_output band_tool_output g n : String) :
    ielts_evaluation_prompt_format essay question criteria output_score
        output_comments task_tool_output criteria_tool_output band_tool_output
        (some g) (some n) =
      Except.ok (ielts_evaluation_template_pre criteria g task_tool_output
          question essay criteria_tool_output band_tool_output
        ++ n
        ++ ielts_evaluation_template_post criteria output_score
          output_comments) := rfl

/-- C7: of the three text agents, only the lexical and coherence agents embed
the fixed instruction "Responses of 20 words or fewer are rated at Band 1."
in their evaluation request; the grammar agent's `format` call omits the
`goal_aditional` and `notes` keyword arguments, so its request construction
raises a `KeyError` and in particular never contains the instruction. -/
theorem short_response_instruction_coverage :
    (∀ e q t c bnd : String,
      grammar_evaluation_prompt e q t c bnd =
        Except.error "KeyError: goal_aditional") ∧
    (∀ e q t c bnd : String, ∃ p s : String,
      lexical_evaluation_prompt e q t c bnd =
        Except.ok (p ++ twenty_word_instruction ++ s)) ∧
    (∀ e q t c bnd : String, ∃ p s : String,
      coherence_evaluation_prompt e q t c bnd =
        Except.ok (p ++ twenty_word_instruction ++ s)) := by
  have append_mid_extract : ∀ P N T : String,
      P ++ (N ++ "\nResponses of 20 words or fewer are rated at Band 1.") ++ T
        = (P ++ (N ++ "\n")) ++ twenty_word_instruction ++ T := by
    intro P N T
    rw [String.append_assoc P (N ++ "\n") twenty_word_instruction,
      String.append_assoc N "\n" twenty_word_instruction,
      show ("\n" : String) ++ twenty_word_instruction =
        "\nResponses of 20 words or fewer are rated at Band 1." from by decide]
  refine ⟨fun e q t c bnd => rfl, fun e q t c bnd => ⟨_, _, rfl⟩, ?_⟩
  intro e q t c bnd
  refine ⟨ielts_evaluation_template_pre "Coherence & Cohesion"
      "Do NOT comment on grammar, vocabulary, spelling, or task achievement."
      t q e c bnd ++ (note_paragraphing e ++ "\n"),
    ielts_evaluation_template_post "Coherence & Cohesion" "coherence_score"
      "coherence_comment", ?_⟩
  unfold coherence_evaluation_prompt
  rw [ielts_format_ok, append_mid_extract]

/-! ## Claim C4 -/

/-- One failing attempt consumes one retry. -/
theorem retry_go_step {α : Type} (f : ℕ → Except String α) (n i : ℕ)
    (e : String) (hf : f i = Except.error e) :
    retry_go f (n + 2) i = retry_go f (n + 1) (i + 1) := by
  rw [retry_go, hf]

/-- A successful attempt ends the retry loop. -/
theorem retry_go_succeed {α : Type} (f : ℕ → Except String α) (n i : ℕ)
    (a : α) (hf : f i = Except.ok a) :
    retry_go f (n + 2) i = Except.ok a := by
  rw [retry_go, hf]

/-- C4: the scoring-branch wrapper (`with_retry(stop_after_attempt=5)`,
central_agent.py lines 34-40) re-invokes the same input: a branch failing on
attempts 0-3 and succeeding on attempt 4 yields the success, and a branch
failing on all five attempts propagates the final exception. -/
theorem scoring_retriable_five_attempts :
    (∀ (σ α : Type) (agent : σ → ℕ → Except String α) (x : σ) (a : α),
      (∀ i, i < 4 → ∃ e, agent x i = Except.error e) →
      agent x 4 = Except.ok a →
      scoring_retriable agent x = Except.ok a) ∧
    (∀ (σ α : Type) (agent : σ → ℕ → Except String α) (x : σ),
      (∀ i, i < 5 → ∃ e, agent x i = Except.error e) →
      ∃ e, scoring_retriable agent x = Except.error e ∧
        agent x 4 = Except.error e) := by
  constructor
  · intro σ α agent x a h hok
    obtain ⟨e0, h0⟩ := h 0 (by omega)
    obtain ⟨e1, h1⟩ := h 1 (by omega)
    obtain ⟨e2, h2⟩ := h 2 (by omega)
    obtain ⟨e3, h3⟩ := h 3 (by omega)
    calc scoring_retriable agent x
        = retry_go (agent x) 5 0 := rfl
      _ = retry_go (agent x) 4 1 := retry_go_step (agent x) 3 0 e0 h0
      _ = retry_go (agent x) 3 2 := retry_go_step (agent x) 2 1 e1 h1
      _ = retry_go (agent x) 2 3 := retry_go_step (agent x) 1 2 e2 h2
      _ = retry_go (agent x) 1 4 := retry_go_step (agent x) 0 3 e3 h3
      _ = agent x 4 := rfl
      _ = Except.ok a := hok
  · intro σ α agent x h
    obtain ⟨e0, h0⟩ := h 0 (by omega)
    obtain ⟨e1, h1⟩ := h 1 (by omega)
    obtain ⟨e2, h2⟩ := h 2 (by omega)
    obtain ⟨e3, h3⟩ := h 3 (by omega)
    obtain ⟨e4, h4⟩ := h 4 (by omega)
    refine ⟨e4, ?_, h4⟩
    calc scoring_retriable agent x
        = retry_go (agent x) 5 0 := rfl
      _ = retry_go (agent x) 4 1 := retry_go_step (agent x) 3 0 e0 h0
      _ = retry_go (agent x) 3 2 := retry_go_step (agent x) 2 1 e1 h1
      _ = retry_go (agent x) 2 3 := retry_go_step (agent x) 1 2 e2 h2
      _ = retry_go (agent x) 1 4 := retry_go_step (agent x) 0 3 e3 h3
      _ = agent x 4 := rfl
      _ = Except.error e4 := h4

/-- Witness for C4: an agent that fails on attempts 0-3 and succeeds on
attempt 4 succeeds through the wrapper; one that always fails propagates the
error. -/
theorem scoring_retriable_five_attempts_witness :
    scoring_retriable
        (fun (_ : Unit) (i : ℕ) =>
          if i < 4 then Except.error "boom" else Except.ok (42 : ℕ)) () =
      Except.ok 42 ∧
    ∃ e, scoring_retriable
        (fun (_ : Unit) (_ : ℕ) => (Except.error "down" : Except String ℕ)) () =
      Except.error e ∧
      (fun (_ : Unit) (_ : ℕ) => (Except.error "down" : Except String ℕ)) () 4 =
        Except.error e :=
  ⟨scoring_retriable_five_attempts.1 Unit ℕ
      (fun _ i => if i < 4 then Except.error "boom" else Except.ok 42) () 42
      (fun i hi => ⟨"boom", by simp [hi]⟩) (by simp),
   scoring_retriable_five_attempts.2 Unit ℕ
      (fun _ _ => Except.error "down") () (fun i _ => ⟨"down", rfl⟩)⟩

/-! ## `Except` plumbing lemmas -/

/-- Bind on a success reduces. -/
theorem bind_ok_eq {α β : Type} (a : α) (f : α → Except String β) :
    (Except.ok a >>= f) = f a := rfl

/-- Bind on an error short-circuits. -/
theorem bind_error_eq {α β : Type} (e : String) (f : α → Except String β) :
    ((Except.error e : Except String α) >>= f) = Except.error e := rfl

/-- A `mapM` over `Except` succeeds when every element does. -/
theorem mapM_ok_of_forall {α β : Type} (f : α → Except String β) :
    ∀ l : List α, (∀ x ∈ l, ∃ y, f x = Except.ok y) →
      ∃ l' : List β, l.mapM f = Except.ok l' := by
  intro l
  induction l with
  | nil => exact fun _ => ⟨[], rfl⟩
  | cons a t ih =>
    intro h
    obtain ⟨y, hy⟩ := h a (by simp)
    obtain ⟨t', ht⟩ := ih (fun x hx => h x (by simp [hx]))
    refine ⟨y :: t', ?_⟩
    rw [List.mapM_cons, hy]
    show t.mapM f >>= _ = _
    rw [ht]
    rfl

/-! ## Resolution lemmas for the descriptor store -/

/-- An essay-type code outside 1-4 raises the mapping `ValueError`. -/
theorem map_essay_type_invalid (et : ℤ)
    (h1 : et ≠ 1) (h2 : et ≠ 2) (h3 : et ≠ 3) (h4 : et ≠ 4) :
    map_essay_type et = Except.error "Invalid essay_type, must be 1-4" := by
  unfold map_essay_type
  rw [if_neg (by omega), if_neg (by omega)]

/-- An agent name whose lower-casing is none of the four known agents raises
the mapping `ValueError`. -/
theorem map_agent_to_criteria_unknown (agent : String) (tn : Option ℤ)
    (h1 : pyToLower agent ≠ "task_agent")
    (h2 : pyToLower agent ≠ "grammar_agent")
    (h3 : pyToLower agent ≠ "lexical_agent")
    (h4 : pyToLower agent ≠ "coherence_agent") :
    map_agent_to_criteria agent tn =
      Except.error ("Unknown agent name: " ++ agent) := by
  unfold map_agent_to_criteria
  simp only []
  rw [if_neg h1, if_neg h2, if_neg h3, if_neg h4]

/-- Once the exam/task/criterion resolution is fixed, the target-band
descriptor lookup is the option-eliminator over the data entry. -/
theorem get_target_band_descriptors_reduces (bd : BandDescriptorData)
    (et : ℤ) (agent : String) (band : ℤ) (E T : String) (tn : ℤ) (C : String)
    (hmap : map_essay_type et = Except.ok (E, T, tn))
    (hagent : map_agent_to_criteria agent (some tn) = Except.ok C) :
    get_target_band_descriptors_by_criteria bd et agent band =
      (bd.entry E T C band).elim
        (Except.ok "Descriptor not found for given parameters.")
        (fun dd => Except.ok (format_descriptor_output_all E T
          (C ++ " - Band " ++ toString band) dd)) := by
  unfold get_target_band_descriptors_by_criteria
  rw [hmap, bind_ok_eq]
  simp only []
  rw [hagent, bind_ok_eq]
  cases bd.entry E T C band <;> rfl

/-- Once the exam/task/criterion resolution is fixed, the assessment-criteria
lookup is the option-eliminator over the data entry. -/
theorem get_assessment_by_criteria_reduces (ad : AssessmentData)
    (et : ℤ) (agent : String) (E T : String) (tn : ℤ) (C : String)
    (hmap : map_essay_type et = Except.ok (E, T, tn))
    (hagent : map_agent_to_criteria agent (some tn) = Except.ok C) :
    get_assessment_by_criteria ad et agent =
      (ad.entry E T C).elim
        (Except.ok "Criterion assessment not found for given parameters.")
        (fun cd => Except.ok (format_output_criterion C cd)) := by
  unfold get_assessment_by_criteria
  rw [hmap, bind_ok_eq]
  simp only []
  rw [hagent, bind_ok_eq]
  cases ad.entry E T C <;> rfl

/-- The option-eliminator over a descriptor entry always succeeds. -/
theorem elim_descriptor_ok (o : Option String) (f : String → String) :
    ∃ r, o.elim
      (Except.ok "Descriptor not found for given parameters." :
        Except String String) (fun d => Except.ok (f d)) = Except.ok r := by
  cases o with
  | none => exact ⟨_, rfl⟩
  | some d => exact ⟨_, rfl⟩

/-- The option-eliminator over a criteria entry always succeeds. -/
theorem elim_criteria_ok (o : Option CriterionAssessment)
    (f : CriterionAssessment → String) :
    ∃ r, o.elim
      (Except.ok "Criterion assessment not found for given parameters." :
        Except String String) (fun d => Except.ok (f d)) = Except.ok r := by
  cases o with
  | none => exact ⟨_, rfl⟩
  | some d => exact ⟨_, rfl⟩

/-- For a valid essay type and a known agent, the target-band descriptor
lookup never raises: both the found and the not-found paths return `ok`. -/
theorem get_target_band_descriptors_ok (bd : BandDescriptorData)
    (et band : ℤ) (het : et = 1 ∨ et = 2 ∨ et = 3 ∨ et = 4) (agent : String)
    (ha : agent = "grammar_agent" ∨ agent = "lexical_agent"
      ∨ agent = "coherence_agent" ∨ agent = "task_agent") :
    ∃ r, get_target_band_descriptors_by_criteria bd et agent band =
      Except.ok r := by
  have go : ∀ (E T : String) (tn : ℤ) (C : String) (et' : ℤ) (agent' : String),
      map_essay_type et' = Except.ok (E, T, tn) →
      map_agent_to_criteria agent' (some tn) = Except.ok C →
      ∃ r, get_target_band_descriptors_by_criteria bd et' agent' band =
        Except.ok r := by
    intro E T tn C et' agent' h1 h2
    rw [get_target_band_descriptors_reduces bd et' agent' band E T tn C h1 h2]
    exact elim_descriptor_ok _ _
  rcases het with rfl | rfl | rfl | rfl
  · rcases ha with rfl | rfl | rfl | rfl <;> exact go _ _ 1 _ _ _ rfl rfl
  · rcases ha with rfl | rfl | rfl | rfl <;> exact go _ _ 2 _ _ _ rfl rfl
  · rcases ha with rfl | rfl | rfl | rfl <;> exact go _ _ 1 _ _ _ rfl rfl
  · rcases ha with rfl | rfl | rfl | rfl <;> exact go _ _ 2 _ _ _ rfl rfl

/-- For a valid essay type and a known agent, the assessment-criteria lookup
never raises. -/
theorem get_assessment_by_criteria_ok (ad : AssessmentData) (et : ℤ)
    (het : et = 1 ∨ et = 2 ∨ et = 3 ∨ et = 4) (agent : String)
    (ha : agent = "grammar_agent" ∨ agent = "lexical_agent"
      ∨ agent = "coherence_agent" ∨ agent = "task_agent") :
    ∃ r, get_assessment_by_criteria ad et agent = Except.ok r := by
  have go : ∀ (E T : String) (tn : ℤ) (C : String) (et' : ℤ) (agent' : String),
      map_essay_type et' = Except.ok (E, T, tn) →
      map_agent_to_criteria agent' (some tn) = Except.ok C →
      ∃ r, get_assessment_by_criteria ad et' agent' = Except.ok r := by
    intro E T tn C et' agent' h1 h2
    rw [get_assessment_by_criteria_reduces ad et' agent' E T tn C h1 h2]
    exact elim_criteria_ok _ _
  rcases het with rfl | rfl | rfl | rfl
  · rcases ha with rfl | rfl | rfl | rfl <;> exact go _ _ 1 _ _ _ rfl rfl
  · rcases ha with rfl | rfl | rfl | rfl <;> exact go _ _ 2 _ _ _ rfl rfl
  · rcases ha with rfl | rfl | rfl | rfl <;> exact go _ _ 1 _ _ _ rfl rfl
  · rcases ha with rfl | rfl | rfl | rfl <;> exact go _ _ 2 _ _ _ rfl rfl

/-! ## Claim C9 -/

/-- A band-descriptor dataset with no entries at all (a data file missing the
looked-up path everywhere). -/
def emptyBandDescriptorData : BandDescriptorData where
  entry := fun _ _ _ _ => none

/-- An assessment dataset with no entries at all. -/
def emptyAssessmentData : AssessmentData where
  entry := fun _ _ _ => none
  word_requirement := fun _ _ => none

/-- C9 counterexample: a band-descriptor lookup at the unknown band 10 (the
modelled data holds bands 1-9 only) does not raise — it returns the string
"Descriptor not found for given parameters." as its ordinary value, because
`get_target_band_descriptors_by_criteria` catches the `KeyError`. -/
theorem descriptor_unknown_band_returns_value :
    get_target_band_descriptors_by_criteria specBandDescriptorData 2
        "grammar_agent" 10 =
      Except.ok "Descriptor not found for given parameters." ∧
    ∀ e, get_target_band_descriptors_by_criteria specBandDescriptorData 2
        "grammar_agent" 10 ≠ Except.error e := by
  have h : get_target_band_descriptors_by_criteria specBandDescriptorData 2
      "grammar_agent" 10 =
      Except.ok "Descriptor not found for given parameters." := by
    rw [get_target_band_descriptors_reduces specBandDescriptorData 2
      "grammar_agent" 10 "General Training" "Task 2" 2
      "Grammatical Range & Accuracy" rfl rfl]
    rfl
  exact ⟨h, fun e he => Except.noConfusion ((h.symm.trans he))⟩

/-- C9 as amended: the lookups raise the mapping `ValueError` for an unknown
essay category or an unknown agent name, but a missing data entry — an
unknown (category, criterion) combination or an unknown band — is caught, and
the "not found" message string is returned as a normal value instead of an
exception. -/
theorem descriptor_lookup_error_semantics :
    (∀ (bd : BandDescriptorData) (ad : AssessmentData) (et : ℤ)
      (agent : String) (band : ℤ),
      et ≠ 1 → et ≠ 2 → et ≠ 3 → et ≠ 4 →
      get_target_band_descriptors_by_criteria bd et agent band =
          Except.error "Invalid essay_type, must be 1-4" ∧
        get_assessment_by_criteria ad et agent =
          Except.error "Invalid essay_type, must be 1-4") ∧
    (∀ (bd : BandDescriptorData) (ad : AssessmentData) (agent : String)
      (band : ℤ),
      pyToLower agent ≠ "task_agent" → pyToLower agent ≠ "grammar_agent" →
      pyToLower agent ≠ "lexical_agent" →
      pyToLower agent ≠ "coherence_agent" →
      get_target_band_descriptors_by_criteria bd 2 agent band =
          Except.error ("Unknown agent name: " ++ agent) ∧
        get_assessment_by_criteria ad 2 agent =
          Except.error ("Unknown agent name: " ++ agent)) ∧
    (∀ (bd : BandDescriptorData) (band : ℤ),
      bd.entry "General Training" "Task 2" "Grammatical Range & Accuracy" band
          = none →
      get_target_band_descriptors_by_criteria bd 2 "grammar_agent" band =
        Except.ok "Descriptor not found for given parameters.") ∧
    (∀ ad : AssessmentData,
      ad.entry "General Training" "Task 2" "Grammatical Range & Accuracy"
          = none →
      get_assessment_by_criteria ad 2 "grammar_agent" =
        Except.ok "Criterion assessment not found for given parameters.") := by
  refine ⟨?_, ?_, ?_, ?_⟩
  · intro bd ad et agent band h1 h2 h3 h4
    constructor
    · unfold get_target_band_descriptors_by_criteria
      rw [map_essay_type_invalid et h1 h2 h3 h4]
      rfl
    · unfold get_assessment_by_criteria
      rw [map_essay_type_invalid et h1 h2 h3 h4]
      rfl
  · intro bd ad agent band h1 h2 h3 h4
    constructor
    · unfold get_target_band_descriptors_by_criteria
      rw [show map_essay_type 2 = Except.ok ("General Training", "Task 2", 2)
        from rfl, bind_ok_eq]
      simp only []
      rw [map_agent_to_criteria_unknown agent (some 2) h1 h2 h3 h4]
      rfl
    · unfold get_assessment_by_criteria
      rw [show map_essay_type 2 = Except.ok ("General Training", "Task 2", 2)
        from rfl, bind_ok_eq]
      simp only []
      rw [map_agent_to_criteria_unknown agent (some 2) h1 h2 h3 h4]
      rfl
  · intro bd band h
    rw [get_target_band_descriptors_reduces bd 2 "grammar_agent" band
      "General Training" "Task 2" 2 "Grammatical Range & Accuracy" rfl rfl, h]
    rfl
  · intro ad h
    rw [get_assessment_by_criteria_reduces ad 2 "grammar_agent"
      "General Training" "Task 2" 2 "Grammatical Range & Accuracy" rfl rfl, h]
    rfl

/-- Witness for C9's amended theorem: an invalid category, an unknown agent
name, and data with the looked-up entries missing. -/
theorem descriptor_lookup_error_semantics_witness :
    (get_target_band_descriptors_by_criteria specBandDescriptorData 7
        "grammar_agent" 5 = Except.error "Invalid essay_type, must be 1-4" ∧
      get_assessment_by_criteria specAssessmentData 7 "grammar_agent" =
        Except.error "Invalid essay_type, must be 1-4") ∧
    (get_target_band_descriptors_by_criteria specBandDescriptorData 2
        "overall_agent" 5 =
          Except.error ("Unknown agent name: " ++ "overall_agent") ∧
      get_assessment_by_criteria specAssessmentData 2 "overall_agent" =
        Except.error ("Unknown agent name: " ++ "overall_agent")) ∧
    get_target_band_descriptors_by_criteria emptyBandDescriptorData 2
        "grammar_agent" 5 =
      Except.ok "Descriptor not found for given parameters." ∧
    get_assessment_by_criteria emptyAssessmentData 2 "grammar_agent" =
      Except.ok "Criterion assessment not found for given parameters." :=
  ⟨descriptor_lookup_error_semantics.1 specBandDescriptorData
      specAssessmentData 7 "grammar_agent" 5 (by decide) (by decide)
      (by decide) (by decide),
   descriptor_lookup_error_semantics.2.1 specBandDescriptorData
      specAssessmentData "overall_agent" 5 (by decide) (by decide) (by decide)
      (by decide),
   descriptor_lookup_error_semantics.2.2.1 emptyBandDescriptorData 5 rfl,
   descriptor_lookup_error_semantics.2.2.2 emptyAssessmentData rfl⟩

/-! ## Evaluation lemmas for `gap_analysis` -/

/-- The target test on a half-band value, in integer form. -/
theorem has_hit_target_int (k t : ℤ) :
    has_hit_target ((k : ℚ) / 2) t = true ↔ 2 * t ≤ k := by
  unfold has_hit_target
  rw [decide_eq_true_eq, le_div_iff₀ (by norm_num : (0 : ℚ) < 2)]
  constructor
  · intro h
    have h2 : ((t * 2 : ℤ) : ℚ) ≤ (k : ℚ) := by push_cast; linarith
    have := Int.cast_le.mp h2
    omega
  · intro h
    have h2 : ((t * 2 : ℤ) : ℚ) ≤ (k : ℚ) := by exact_mod_cast (by omega : t * 2 ≤ k)
    push_cast at h2
    linarith

/-- The weak-comment step succeeds on every criterion key of the band-scores
mapping. -/
theorem gap_weak_comment_ok (input : CentralAgentState) (kv : String × ℤ)
    (h : kv ∈ gap_band_scores input) :
    ∃ y, gap_weak_comment input kv = Except.ok y := by
  simp only [gap_band_scores, List.mem_cons, List.not_mem_nil, or_false] at h
  rcases h with rfl | rfl | rfl | rfl <;> exact ⟨_, rfl⟩

/-- The descriptor/criteria fetch step succeeds on every criterion key of the
band-scores mapping, for a valid essay type. -/
theorem gap_fetch_ok (bd : BandDescriptorData) (ad : AssessmentData)
    (et tb : ℤ) (het : et = 1 ∨ et = 2 ∨ et = 3 ∨ et = 4) (kv : String × ℤ)
    (hk : kv.1 = "Grammatical Range & Accuracy"
      ∨ kv.1 = "Coherence & Cohesion" ∨ kv.1 = "Lexical Resource"
      ∨ kv.1 = "Task Response") :
    ∃ y, gap_fetch bd ad et tb kv = Except.ok y := by
  rcases hk with h | h | h | h
  · obtain ⟨d, hd⟩ :=
      get_target_band_descriptors_ok bd et tb het "grammar_agent" (by simp)
    obtain ⟨cc, hc⟩ :=
      get_assessment_by_criteria_ok ad et het "grammar_agent" (by simp)
    refine ⟨("Grammatical Range & Accuracy", d, cc), ?_⟩
    unfold gap_fetch
    rw [h, show map_criteria_to_agent "Grammatical Range & Accuracy" =
      Except.ok "grammar_agent" from rfl, bind_ok_eq]
    try simp only []
    rw [hd, bind_ok_eq]
    try simp only []
    rw [bind_ok_eq]
    try simp only []
    rw [hc]
    rfl
  · obtain ⟨d, hd⟩ :=
      get_target_band_descriptors_ok bd et tb het "coherence_agent" (by simp)
    obtain ⟨cc, hc⟩ :=
      get_assessment_by_criteria_ok ad et het "coherence_agent" (by simp)
    refine ⟨("Coherence & Cohesion", d, cc), ?_⟩
    unfold gap_fetch
    rw [h, show map_criteria_to_agent "Coherence & Cohesion" =
      Except.ok "coherence_agent" from rfl, bind_ok_eq]
    try simp only []
    rw [hd, bind_ok_eq]
    try simp only []
    rw [bind_ok_eq]
    try simp only []
    rw [hc]
    rfl
  · obtain ⟨d, hd⟩ :=
      get_target_band_descriptors_ok bd et tb het "lexical_agent" (by simp)
    obtain ⟨cc, hc⟩ :=
      get_assessment_by_criteria_ok ad et het "lexical_agent" (by simp)
    refine ⟨("Lexical Resource", d, cc), ?_⟩
    unfold gap_fetch
    rw [h, show map_criteria_to_agent "Lexical Resource" =
      Except.ok "lexical_agent" from rfl, bind_ok_eq]
    try simp only []
    rw [hd, bind_ok_eq]
    try simp only []
    rw [bind_ok_eq]
    try simp only []
    rw [hc]
    rfl
  · obtain ⟨d, hd⟩ :=
      get_target_band_descriptors_ok bd et tb het "task_agent" (by simp)
    obtain ⟨cc, hc⟩ :=
      get_assessment_by_criteria_ok ad et het "task_agent" (by simp)
    refine ⟨("Task Response", d, cc), ?_⟩
    unfold gap_fetch
    rw [h, show map_criteria_to_agent "Task Response" =
      Except.ok "task_agent" from rfl, bind_ok_eq]
    try simp only []
    rw [hd, bind_ok_eq]
    try simp only []
    rw [bind_ok_eq]
    try simp only []
    rw [hc]
    rfl

/-- On the target-met path, `gap_analysis` returns exactly the fixed message
update, for any data and any generation function. -/
theorem gap_analysis_hit_eq (bd : BandDescriptorData) (ad : AssessmentData)
    (llm : ℚ → ℤ → List (String × ℤ) → List (String × Option String) →
      List (String × String) → List (String × String) → String)
    (s : CentralAgentState)
    (hg : 0 ≤ s.grammar_score ∧ s.grammar_score ≤ 9)
    (hc : 0 ≤ s.coherence_score ∧ s.coherence_score ≤ 9)
    (hl : 0 ≤ s.lexical_score ∧ s.lexical_score ≤ 9)
    (ht : 0 ≤ s.task_score ∧ s.task_score ≤ 9)
    (hhit : 2 * s.target_band ≤
      (s.grammar_score + s.coherence_score + s.lexical_score + s.task_score)
        / 2) :
    gap_analysis bd ad llm s =
      Except.ok { overall_feedback := target_met_message } := by
  unfold gap_analysis
  simp only []
  rw [show (gap_band_scores s).map Prod.snd =
    [s.grammar_score, s.coherence_score, s.lexical_score, s.task_score]
    from rfl]
  rw [calculate_overall_band_ok _ _ _ _ hg hc hl ht, bind_ok_eq]
  try simp only []
  rw [if_pos ((has_hit_target_int _ _).mpr hhit)]

/-- On the target-missed path, `gap_analysis` returns the full update whose
`met_target` is `some false` and whose `weak_bands` is exactly the strict
below-target filter of the band-scores mapping. -/
theorem gap_analysis_miss_eq (bd : BandDescriptorData) (ad : AssessmentData)
    (llm : ℚ → ℤ → List (String × ℤ) → List (String × Option String) →
      List (String × String) → List (String × String) → String)
    (s : CentralAgentState)
    (hg : 0 ≤ s.grammar_score ∧ s.grammar_score ≤ 9)
    (hc : 0 ≤ s.coherence_score ∧ s.coherence_score ≤ 9)
    (hl : 0 ≤ s.lexical_score ∧ s.lexical_score ≤ 9)
    (ht : 0 ≤ s.task_score ∧ s.task_score ≤ 9)
    (het : s.essay_type = 1 ∨ s.essay_type = 2 ∨ s.essay_type = 3
      ∨ s.essay_type = 4)
    (hmiss :
      (s.grammar_score + s.coherence_score + s.lexical_score + s.task_score)
        / 2 < 2 * s.target_band) :
    ∃ u, gap_analysis bd ad llm s = Except.ok u ∧
      u.met_target = some false ∧
      u.weak_bands =
        some (get_weak_bands (gap_band_scores s) s.target_band) := by
  have keyfact : ∀ kv : String × ℤ, kv ∈ gap_band_scores s →
      (kv.1 = "Grammatical Range & Accuracy"
        ∨ kv.1 = "Coherence & Cohesion" ∨ kv.1 = "Lexical Resource"
        ∨ kv.1 = "Task Response") := by
    intro kv hm
    simp only [gap_band_scores, List.mem_cons, List.not_mem_nil,
      or_false] at hm
    rcases hm with rfl | rfl | rfl | rfl <;> simp
  obtain ⟨wc, hwc⟩ := mapM_ok_of_forall (gap_weak_comment s)
    (get_weak_bands (gap_band_scores s) s.target_band)
    (fun kv hkv => gap_weak_comment_ok s kv (List.mem_of_mem_filter hkv))
  obtain ⟨fd, hfd⟩ := mapM_ok_of_forall
    (gap_fetch bd ad s.essay_type s.target_band)
    (get_weak_bands (gap_band_scores s) s.target_band)
    (fun kv hkv => gap_fetch_ok bd ad s.essay_type s.target_band het kv
      (keyfact kv (List.mem_of_mem_filter hkv)))
  refine ⟨⟨llm ((((s.grammar_score + s.coherence_score + s.lexical_score
        + s.task_score) / 2 : ℤ) : ℚ) / 2) s.target_band
      (get_weak_bands (gap_band_scores s) s.target_band) wc
      (fd.map (fun x => (x.1, x.2.1))) (fd.map (fun x => (x.1, x.2.2))),
    some ((((s.grammar_score + s.coherence_score + s.lexical_score
        + s.task_score) / 2 : ℤ) : ℚ) / 2),
    some false,
    some (get_weak_bands (gap_band_scores s) s.target_band),
    some (fd.map (fun x => (x.1, x.2.1))),
    some (fd.map (fun x => (x.1, x.2.2)))⟩, ?_, rfl, rfl⟩
  unfold gap_analysis
  simp only []
  rw [show (gap_band_scores s).map Prod.snd =
    [s.grammar_score, s.coherence_score, s.lexical_score, s.task_score]
    from rfl]
  rw [calculate_overall_band_ok _ _ _ _ hg hc hl ht, bind_ok_eq]
  try simp only []
  rw [if_neg (by rw [has_hit_target_int]; omega)]
  rw [hwc, bind_ok_eq]
  try simp only []
  rw [hfd, bind_ok_eq]
  try simp only []
  try rfl

/-! ## Claim C2 -/

/-- A constant improvement-plan generator, standing in for the opaque LLM. -/
def constantImprovementPlan : ℚ → ℤ → List (String × ℤ) →
    List (String × Option String) → List (String × String) →
    List (String × String) → String :=
  fun _ _ _ _ _ _ => "Improvement plan text"

/-- A fully aggregated state whose overall band (9.0) meets its target 1. -/
def gapHitExampleState : CentralAgentState where
  essay_type := 2
  target_band := 1
  grammar_score := 9
  coherence_score := 9
  lexical_score := 9
  task_score := 9
  grammar_comment := none
  coherence_comment := none
  lexical_comment := none
  task_comment := none

/-- A fully aggregated state whose overall band (6.5) misses its target 9. -/
def gapMissExampleState : CentralAgentState where
  essay_type := 3
  target_band := 9
  grammar_score := 5
  coherence_score := 6
  lexical_score := 7
  task_score := 8
  grammar_comment := some "grammar feedback"
  coherence_comment := some "coherence feedback"
  lexical_comment := some "lexical feedback"
  task_comment := some "task feedback"

/-- C2 counterexample: on the target-met path `gap_analysis` returns a state
update containing only the fixed congratulatory message — it does not return
target-met=true or an empty weak_bands mapping; those keys are simply absent
from the returned dict. -/
theorem gap_analysis_hit_omits_flags :
    gap_analysis emptyBandDescriptorData emptyAssessmentData
        constantImprovementPlan gapHitExampleState =
      Except.ok { overall_feedback := target_met_message } ∧
    ¬ ∃ u, gap_analysis emptyBandDescriptorData emptyAssessmentData
        constantImprovementPlan gapHitExampleState = Except.ok u ∧
      u.met_target = some true ∧ u.weak_bands = some [] := by
  have h := gap_analysis_hit_eq emptyBandDescriptorData emptyAssessmentData
    constantImprovementPlan gapHitExampleState (by decide) (by decide)
    (by decide) (by decide) (by decide)
  refine ⟨h, ?_⟩
  rintro ⟨u, hu, hm, -⟩
  rw [h] at hu
  injection hu with h'
  rw [← h'] at hm
  exact Option.noConfusion hm

/-- C2 as amended: when the overall band meets the target, `gap_analysis`
returns only the fixed congratulatory message (the target-met flag and
weak_bands are left unset in the update) and performs no descriptor or
assessment-criteria lookups — the result is independent of the datasets and
of the generation function; when the target is missed, it returns
target-met=false and weak_bands holding exactly the criteria strictly below
the target (a criterion at the target is not weak). -/
theorem gap_analysis_result_shape :
    ∀ (bd : BandDescriptorData) (ad : AssessmentData)
      (llm : ℚ → ℤ → List (String × ℤ) → List (String × Option String) →
        List (String × String) → List (String × String) → String)
      (s : CentralAgentState),
      0 ≤ s.grammar_score → s.grammar_score ≤ 9 →
      0 ≤ s.coherence_score → s.coherence_score ≤ 9 →
      0 ≤ s.lexical_score → s.lexical_score ≤ 9 →
      0 ≤ s.task_score → s.task_score ≤ 9 →
      (s.essay_type = 1 ∨ s.essay_type = 2 ∨ s.essay_type = 3
        ∨ s.essay_type = 4) →
      ((2 * s.target_band ≤
          (s.grammar_score + s.coherence_score + s.lexical_score
            + s.task_score) / 2 →
        gap_analysis bd ad llm s =
            Except.ok { overall_feedback := target_met_message } ∧
          ∀ (bd' : BandDescriptorData) (ad' : AssessmentData)
            (llm' : ℚ → ℤ → List (String × ℤ) →
              List (String × Option String) → List (String × String) →
              List (String × String) → String),
            gap_analysis bd' ad' llm' s = gap_analysis bd ad llm s) ∧
      ((s.grammar_score + s.coherence_score + s.lexical_score + s.task_score)
          / 2 < 2 * s.target_band →
        ∃ u, gap_analysis bd ad llm s = Except.ok u ∧
          u.met_target = some false ∧
          u.weak_bands =
            some (get_weak_bands (gap_band_scores s) s.target_band) ∧
          ∀ (name : String) (v : ℤ),
            (name, v) ∈ get_weak_bands (gap_band_scores s) s.target_band ↔
              ((name, v) ∈ gap_band_scores s ∧ v < s.target_band))) := by
  intro bd ad llm s h1 h2 h3 h4 h5 h6 h7 h8 het
  constructor
  · intro hh
    constructor
    · exact gap_analysis_hit_eq bd ad llm s ⟨h1, h2⟩ ⟨h3, h4⟩ ⟨h5, h6⟩
        ⟨h7, h8⟩ hh
    · intro bd' ad' llm'
      rw [gap_analysis_hit_eq bd' ad' llm' s ⟨h1, h2⟩ ⟨h3, h4⟩ ⟨h5, h6⟩
        ⟨h7, h8⟩ hh,
        gap_analysis_hit_eq bd ad llm s ⟨h1, h2⟩ ⟨h3, h4⟩ ⟨h5, h6⟩
        ⟨h7, h8⟩ hh]
  · intro hm
    obtain ⟨u, hu, hmt, hwb⟩ := gap_analysis_miss_eq bd ad llm s ⟨h1, h2⟩
      ⟨h3, h4⟩ ⟨h5, h6⟩ ⟨h7, h8⟩ het hm
    refine ⟨u, hu, hmt, hwb, ?_⟩
    intro name v
    simp [get_weak_bands, List.mem_filter]

/-- Witness for C2's amended theorem: the hit state returns only the fixed
message independently of the data, and the miss state returns the strict
below-target filter. -/
theorem gap_analysis_result_shape_witness :
    (gap_analysis emptyBandDescriptorData emptyAssessmentData
        constantImprovementPlan gapHitExampleState =
          Except.ok { overall_feedback := target_met_message } ∧
      ∀ (bd' : BandDescriptorData) (ad' : AssessmentData)
        (llm' : ℚ → ℤ → List (String × ℤ) → List (String × Option String) →
          List (String × String) → List (String × String) → String),
        gap_analysis bd' ad' llm' gapHitExampleState =
          gap_analysis emptyBandDescriptorData emptyAssessmentData
            constantImprovementPlan gapHitExampleState) ∧
    (∃ u, gap_analysis emptyBandDescriptorData emptyAssessmentData
        constantImprovementPlan gapMissExampleState = Except.ok u ∧
      u.met_target = some false ∧
      u.weak_bands = some (get_weak_bands (gap_band_scores gapMissExampleState)
        gapMissExampleState.target_band) ∧
      ∀ (name : String) (v : ℤ),
        (name, v) ∈ get_weak_bands (gap_band_scores gapMissExampleState)
            gapMissExampleState.target_band ↔
          ((name, v) ∈ gap_band_scores gapMissExampleState ∧
            v < gapMissExampleState.target_band)) :=
  ⟨(gap_analysis_result_shape emptyBandDescriptorData emptyAssessmentData
      constantImprovementPlan gapHitExampleState (by decide) (by decide)
      (by decide) (by decide) (by decide) (by decide) (by decide) (by decide)
      (by decide)).1 (by decide),
   (gap_analysis_result_shape emptyBandDescriptorData emptyAssessmentData
      constantImprovementPlan gapMissExampleState (by decide) (by decide)
      (by decide) (by decide) (by decide) (by decide) (by decide) (by decide)
      (by decide)).2 (by decide)⟩

/-! ## Claim C10 -/

/-- The criterion the descriptor store actually resolves for the task
criterion key: `gap_analysis` maps the key to `task_agent` via
`map_criteria_to_agent`, and the tools map `task_agent` back through
`map_essay_type`/`map_agent_to_criteria`. -/
def resolved_task_criterion (essay_type : ℤ) : Except String String := do
  let (_, _, task_number) ← map_essay_type essay_type
  map_agent_to_criteria "task_agent" (some task_number)

/-- C10: `gap_analysis` keys the task criterion "Task Response" for every
essay type; "Task Achievement" never appears among the band-score or
weak-band keys; and the descriptor lookups for that key still resolve to the
correct criterion for the submission's task number ("Task Achievement" for
Task 1 types 1 and 3, "Task Response" for Task 2 types 2 and 4). -/
theorem gap_task_key_always_task_response :
    (∀ s : CentralAgentState, (gap_band_scores s).map Prod.fst =
      ["Grammatical Range & Accuracy", "Coherence & Cohesion",
        "Lexical Resource", "Task Response"]) ∧
    (∀ s : CentralAgentState,
      "Task Achievement" ∉ (gap_band_scores s).map Prod.fst) ∧
    map_criteria_to_agent "Task Response" = Except.ok "task_agent" ∧
    (∀ et : ℤ, et = 1 ∨ et = 3 →
      resolved_task_criterion et = Except.ok "Task Achievement") ∧
    (∀ et : ℤ, et = 2 ∨ et = 4 →
      resolved_task_criterion et = Except.ok "Task Response") ∧
    (∀ (bd : BandDescriptorData) (ad : AssessmentData)
      (llm : ℚ → ℤ → List (String × ℤ) → List (String × Option String) →
        List (String × String) → List (String × String) → String)
      (s : CentralAgentState),
      0 ≤ s.grammar_score → s.grammar_score ≤ 9 →
      0 ≤ s.coherence_score → s.coherence_score ≤ 9 →
      0 ≤ s.lexical_score → s.lexical_score ≤ 9 →
      0 ≤ s.task_score → s.task_score ≤ 9 →
      (s.essay_type = 1 ∨ s.essay_type = 2 ∨ s.essay_type = 3
        ∨ s.essay_type = 4) →
      (s.grammar_score + s.coherence_score + s.lexical_score + s.task_score)
          / 2 < 2 * s.target_band →
      ∃ u w, gap_analysis bd ad llm s = Except.ok u ∧
        u.weak_bands = some w ∧
        "Task Achievement" ∉ w.map Prod.fst ∧
        (("Task Response", s.task_score) ∈ w ↔
          s.task_score < s.target_band)) := by
  refine ⟨fun s => rfl, ?_, rfl, ?_, ?_, ?_⟩
  · intro s
    rw [show (gap_band_scores s).map Prod.fst =
      ["Grammatical Range & Accuracy", "Coherence & Cohesion",
        "Lexical Resource", "Task Response"] from rfl]
    decide
  · intro et h
    rcases h with rfl | rfl <;> rfl
  · intro et h
    rcases h with rfl | rfl <;> rfl
  · intro bd ad llm s h1 h2 h3 h4 h5 h6 h7 h8 het hm
    obtain ⟨u, hu, hmt, hwb⟩ := gap_analysis_miss_eq bd ad llm s ⟨h1, h2⟩
      ⟨h3, h4⟩ ⟨h5, h6⟩ ⟨h7, h8⟩ het hm
    refine ⟨u, get_weak_bands (gap_band_scores s) s.target_band, hu, hwb,
      ?_, ?_⟩
    · intro hx
      obtain ⟨x, hxf, hx1⟩ := List.mem_map.1 hx
      have hxm := List.mem_of_mem_filter hxf
      simp only [gap_band_scores, List.mem_cons, List.not_mem_nil,
        or_false] at hxm
      rcases hxm with rfl | rfl | rfl | rfl <;> simp at hx1
    · simp [get_weak_bands, List.mem_filter, gap_band_scores]

/-- Witness for C10: the resolution facts at concrete essay types, and the
weak-band key shape on the concrete missing state. -/
theorem gap_task_key_always_task_response_witness :
    resolved_task_criterion 1 = Except.ok "Task Achievement" ∧
    resolved_task_criterion 4 = Except.ok "Task Response" ∧
    ∃ u w, gap_analysis emptyBandDescriptorData emptyAssessmentData
        constantImprovementPlan gapMissExampleState = Except.ok u ∧
      u.weak_bands = some w ∧
      "Task Achievement" ∉ w.map Prod.fst ∧
      (("Task Response", gapMissExampleState.task_score) ∈ w ↔
        gapMissExampleState.task_score < gapMissExampleState.target_band) :=
  ⟨gap_task_key_always_task_response.2.2.2.1 1 (by decide),
   gap_task_key_always_task_response.2.2.2.2.1 4 (by decide),
   gap_task_key_always_task_response.2.2.2.2.2 emptyBandDescriptorData
     emptyAssessmentData constantImprovementPlan gapMissExampleState
     (by decide) (by decide) (by decide) (by decide) (by decide) (by decide)
     (by decide) (by decide) (by decide) (by decide)⟩

end ELAPro
